import Mathlib

/-!
# InterruptButton: debounce and gesture classification

A shallow embedding of `Palatis::InterruptButton` (src/InterruptButton.h).

* `uint32_t` values are natural numbers; every subtraction of two timestamps is
  the wrapping 32-bit subtraction `sub32`.
* `millis()` and `digitalRead(_pin)` are inputs of the two entry points.
* The template parameters `DEBOUNCE_TIMEOUT`, `DOUBLE_TIMEOUT`, `LONGPRESS_TIMEOUT`
  are collected in `Timeouts`.
* A callback invocation is an observable output of `tick`: the result records which
  dispatch site was reached and whether the registered pointer was non-NULL.
-/

namespace Palatis

/-- Wrapping 32-bit subtraction `a - b` of two `uint32_t` values. -/
def sub32 (a b : Nat) : Nat := (a % 4294967296 + (4294967296 - b % 4294967296)) % 4294967296

/-- The three template parameters of `InterruptButton`. -/
structure Timeouts where
  DEBOUNCE_TIMEOUT : Nat
  DOUBLE_TIMEOUT : Nat
  LONGPRESS_TIMEOUT : Nat
  deriving DecidableEq, Repr

/-- The template defaults: 20 ms, 200 ms, 1000 ms. -/
def defaultTimeouts : Timeouts := ⟨20, 200, 1000⟩

/-- The three gestures, one per callback slot. -/
inductive Gesture where
  | single
  | double
  | long
  deriving DecidableEq, Repr

/-- The data members of `InterruptButton`. A callback member is `true` when the
pointer is not `NULL`. -/
structure InterruptButton where
  _pin : Nat
  _level : Nat
  _up_millis_0 : Nat
  _up_millis_1 : Nat
  _down_millis : Nat
  _processed : Bool
  _single_cb : Bool
  _double_cb : Bool
  _long_cb : Bool
  deriving DecidableEq, Repr

/-- The constructor `InterruptButton(pin, level)`: all timestamps 0, processed,
no callback registered. -/
def InterruptButton.new (pin level : Nat) : InterruptButton :=
  { _pin := pin, _level := level,
    _up_millis_0 := 0, _up_millis_1 := 0, _down_millis := 0,
    _processed := true,
    _single_cb := false, _double_cb := false, _long_cb := false }

/-- The three `attachOn...Callback` setters. -/
def attachOnSingleCallback (b : InterruptButton) (callback : Bool) : InterruptButton :=
  { b with _single_cb := callback }

def attachOnDoubleCallback (b : InterruptButton) (callback : Bool) : InterruptButton :=
  { b with _double_cb := callback }

def attachOnLongPressCallback (b : InterruptButton) (callback : Bool) : InterruptButton :=
  { b with _long_cb := callback }

/-- The body of `handleInterrupt()`; `millis` is the value read from `millis()`
and `state` the value read from `digitalRead(_pin)`. -/
def handleInterrupt (T : Timeouts) (b : InterruptButton) (millis state : Nat) : InterruptButton :=
  let now := millis % 4294967296
  if sub32 now b._down_millis < T.DEBOUNCE_TIMEOUT then
    b
  else
    let b1 :=
      if state = b._level then
        { b with _down_millis := now }
      else
        { b with _up_millis_0 := b._up_millis_1, _up_millis_1 := now }
    { b1 with _processed := false }

/-- What one call of `tick()` produces besides the new object state: the `bool` it
returns, the dispatch site it reached (`gesture`), and the callback it actually
called (`called`, the reached site when its pointer is not `NULL`). -/
structure TickResult where
  ret : Bool
  gesture : Option Gesture
  called : Option Gesture
  deriving DecidableEq, Repr

/-- Dispatch `if (cb != NULL) cb();` at the site of gesture `g`. -/
def dispatch (cb : Bool) (g : Gesture) (ret : Bool) : TickResult :=
  { ret := ret, gesture := some g, called := if cb then some g else none }

/-- Return without reaching a dispatch site. -/
def quiet (ret : Bool) : TickResult :=
  { ret := ret, gesture := none, called := none }

/-- The body of `tick()`; `millis` is the value `millis()` returns when it is read. -/
def tick (T : Timeouts) (b : InterruptButton) (millis : Nat) : InterruptButton × TickResult :=
  if b._processed then
    (b, quiet false)
  else if b._down_millis = 0 then
    (b, quiet true)
  else
    let now := millis % 4294967296
    if sub32 now b._up_millis_1 < T.DOUBLE_TIMEOUT then
      (b, quiet true)
    else if sub32 b._up_millis_1 b._down_millis ≥ 2147483648 then
      if sub32 now b._down_millis > T.LONGPRESS_TIMEOUT then
        ({ b with _processed := true }, dispatch b._long_cb Gesture.long true)
      else
        (b, quiet false)
    else
      let b1 := { b with _processed := true }
      if sub32 b1._up_millis_1 b1._down_millis > T.LONGPRESS_TIMEOUT then
        (b1, quiet false)
      else if sub32 b1._down_millis b1._up_millis_0 < T.DOUBLE_TIMEOUT then
        (b1, dispatch b1._double_cb Gesture.double false)
      else
        (b1, dispatch b1._single_cb Gesture.single false)

/-- One call made on the object: the pin-change interrupt or the main loop's `tick()`. -/
inductive Call where
  | interrupt (millis state : Nat)
  | poll (millis : Nat)
  deriving DecidableEq, Repr

/-- Run a sequence of calls in order, collecting the result of every `tick()`. -/
def run (T : Timeouts) : InterruptButton → List Call → InterruptButton × List TickResult
  | b, [] => (b, [])
  | b, Call.interrupt m st :: cs => run T (handleInterrupt T b m st) cs
  | b, Call.poll m :: cs =>
    let r := tick T b m
    let rest := run T r.1 cs
    (rest.1, r.2 :: rest.2)

/-- Polls only: `tick()` called at each of the given clock values. -/
def polls (ms : List Nat) : List Call := ms.map Call.poll

/-- A freshly constructed object on which the sketch has registered callbacks
(`single`, `double`, `long` tell which of the three pointers are not `NULL`). -/
def setup (pin level : Nat) (single double long : Bool) : InterruptButton :=
  attachOnLongPressCallback
    (attachOnDoubleCallback (attachOnSingleCallback (InterruptButton.new pin level) single) double) long

/-! ## Basic facts -/

theorem sub32_mod_left (a b : Nat) : sub32 (a % 4294967296) b = sub32 a b := by
  unfold sub32; omega

theorem sub32_lt (a b : Nat) : sub32 a b < 4294967296 := by
  unfold sub32; omega

theorem tick_of_processed (T : Timeouts) (b : InterruptButton) (millis : Nat)
    (h : b._processed = true) : tick T b millis = (b, quiet false) := by
  unfold tick; simp [h]

theorem run_append (T : Timeouts) (cs ds : List Call) (b : InterruptButton) :
    run T b (cs ++ ds) = ((run T (run T b cs).1 ds).1, (run T b cs).2 ++ (run T (run T b cs).1 ds).2) := by
  induction cs generalizing b with
  | nil => simp [run]
  | cons c cs ih =>
    cases c with
    | interrupt m st => simp [run, ih]
    | poll m => simp [run, ih]

/-- Polls on which `tick()` leaves the object as it is and always answers `r`. -/
theorem run_polls_const (T : Timeouts) (b : InterruptButton) (r : TickResult) (ms : List Nat)
    (h : ∀ m ∈ ms, tick T b m = (b, r)) :
    run T b (polls ms) = (b, ms.map (fun _ => r)) := by
  induction ms with
  | nil => simp [polls, run]
  | cons m ms ih =>
    have hm : tick T b m = (b, r) := h m (by simp)
    have ih1 := ih (fun k hk => h k (by simp [hk]))
    simp only [polls, List.map_cons, run] at ih1 ⊢
    rw [hm]
    simp [ih1]

theorem run_polls_processed (T : Timeouts) (b : InterruptButton) (ms : List Nat)
    (h : b._processed = true) :
    run T b (polls ms) = (b, ms.map (fun _ => quiet false)) :=
  run_polls_const T b (quiet false) ms (fun m _ => tick_of_processed T b m h)

theorem run_polls_const_append (T : Timeouts) (b : InterruptButton) (r : TickResult)
    (ms : List Nat) (cs : List Call) (h : ∀ m ∈ ms, tick T b m = (b, r)) :
    run T b (polls ms ++ cs) = ((run T b cs).1, ms.map (fun _ => r) ++ (run T b cs).2) := by
  rw [run_append, run_polls_const T b r ms h]

theorem run_interrupt (T : Timeouts) (b : InterruptButton) (m st : Nat) (cs : List Call) :
    run T b (Call.interrupt m st :: cs) = run T (handleInterrupt T b m st) cs := rfl

theorem run_poll (T : Timeouts) (b : InterruptButton) (m : Nat) (cs : List Call) :
    run T b (Call.poll m :: cs) =
      ((run T (tick T b m).1 cs).1, (tick T b m).2 :: (run T (tick T b m).1 cs).2) := rfl

/-- An edge inside the debounce window is dropped. -/
theorem handleInterrupt_bounce (T : Timeouts) (b : InterruptButton) (m st : Nat)
    (h : sub32 m b._down_millis < T.DEBOUNCE_TIMEOUT) : handleInterrupt T b m st = b := by
  unfold handleInterrupt
  simp only [sub32_mod_left]
  rw [if_pos h]

/-- An accepted edge that reads the active level. -/
theorem handleInterrupt_press (T : Timeouts) (b : InterruptButton) (m st : Nat)
    (hm : m < 4294967296) (hst : st = b._level)
    (h : T.DEBOUNCE_TIMEOUT ≤ sub32 m b._down_millis) :
    handleInterrupt T b m st = { b with _down_millis := m, _processed := false } := by
  unfold handleInterrupt
  simp only [sub32_mod_left, Nat.mod_eq_of_lt hm]
  rw [if_neg (by omega)]
  simp [hst]

/-- An accepted edge that reads the inactive level. -/
theorem handleInterrupt_release (T : Timeouts) (b : InterruptButton) (m st : Nat)
    (hm : m < 4294967296) (hst : st ≠ b._level)
    (h : T.DEBOUNCE_TIMEOUT ≤ sub32 m b._down_millis) :
    handleInterrupt T b m st =
      { b with _up_millis_0 := b._up_millis_1, _up_millis_1 := m, _processed := false } := by
  unfold handleInterrupt
  simp only [sub32_mod_left, Nat.mod_eq_of_lt hm]
  rw [if_neg (by omega)]
  simp [hst]

/-- The guard `_down_millis == 0`. -/
theorem tick_no_press (T : Timeouts) (b : InterruptButton) (m : Nat)
    (hp : b._processed = false) (hd : b._down_millis = 0) : tick T b m = (b, quiet true) := by
  unfold tick; simp [hp, hd]

/-- The guard `now - _up_millis_1 < DOUBLE_TIMEOUT`. -/
theorem tick_waiting (T : Timeouts) (b : InterruptButton) (m : Nat)
    (hp : b._processed = false) (hd : b._down_millis ≠ 0)
    (h : sub32 m b._up_millis_1 < T.DOUBLE_TIMEOUT) : tick T b m = (b, quiet true) := by
  unfold tick
  simp only [sub32_mod_left]
  rw [if_neg (by simp [hp]), if_neg hd, if_pos h]

/-- The branch of a key that is still held. -/
theorem tick_held (T : Timeouts) (b : InterruptButton) (m : Nat)
    (hp : b._processed = false) (hd : b._down_millis ≠ 0)
    (hgap : T.DOUBLE_TIMEOUT ≤ sub32 m b._up_millis_1)
    (hdown : 2147483648 ≤ sub32 b._up_millis_1 b._down_millis) :
    tick T b m =
      if T.LONGPRESS_TIMEOUT < sub32 m b._down_millis then
        ({ b with _processed := true }, dispatch b._long_cb Gesture.long true)
      else (b, quiet false) := by
  unfold tick
  simp only [sub32_mod_left]
  rw [if_neg (by simp [hp]), if_neg hd, if_neg (by omega), if_pos hdown]

/-- The branch of a key that has been released. -/
theorem tick_released (T : Timeouts) (b : InterruptButton) (m : Nat)
    (hp : b._processed = false) (hd : b._down_millis ≠ 0)
    (hgap : T.DOUBLE_TIMEOUT ≤ sub32 m b._up_millis_1)
    (hrel : sub32 b._up_millis_1 b._down_millis < 2147483648) :
    tick T b m =
      ({ b with _processed := true },
        if T.LONGPRESS_TIMEOUT < sub32 b._up_millis_1 b._down_millis then quiet false
        else if sub32 b._down_millis b._up_millis_0 < T.DOUBLE_TIMEOUT then
          dispatch b._double_cb Gesture.double false
        else dispatch b._single_cb Gesture.single false) := by
  unfold tick
  simp only [sub32_mod_left]
  rw [if_neg (by simp [hp]), if_neg hd, if_neg (by omega), if_neg (by omega)]
  split_ifs <;> rfl

/-- A `tick()` either leaves the object alone or only sets `_processed`. -/
theorem tick_state_cases (T : Timeouts) (b : InterruptButton) (m : Nat) :
    (tick T b m).1 = b ∨
      (b._processed = false ∧ (tick T b m).1 = { b with _processed := true }) := by
  by_cases hp : b._processed = true
  · left; rw [tick_of_processed T b m hp]
  · have hp0 : b._processed = false := by simpa using hp
    simp only [tick]
    split_ifs <;> simp [hp0]

/-- A property of the object that every `tick()` keeps, and that forces a property of
every `tick()` result, holds along any sequence of polls. -/
theorem run_polls_invariant (T : Timeouts) (P : InterruptButton → Prop) (Q : TickResult → Prop)
    (h : ∀ b m, P b → P (tick T b m).1 ∧ Q (tick T b m).2) :
    ∀ (ms : List Nat) (b : InterruptButton), P b →
      P (run T b (polls ms)).1 ∧ ∀ r ∈ (run T b (polls ms)).2, Q r := by
  intro ms
  induction ms with
  | nil => intro b hb; simp [polls, run, hb]
  | cons m ms ih =>
    intro b hb
    have h1 := h b m hb
    have h2 := ih (tick T b m).1 h1.1
    simp only [polls, List.map_cons, run] at h2 ⊢
    refine ⟨h2.1, ?_⟩
    intro r hr
    rcases List.mem_cons.mp hr with e | e
    · rw [e]; exact h1.2
    · exact h2.2 r e

/-- What is known when `tick()` reached the long-press dispatch. -/
theorem tick_long_inv (T : Timeouts) (b : InterruptButton) (m : Nat)
    (h : (tick T b m).2.gesture = some Gesture.long) :
    b._processed = false ∧ b._down_millis ≠ 0 ∧ T.DOUBLE_TIMEOUT ≤ sub32 m b._up_millis_1 ∧
      2147483648 ≤ sub32 b._up_millis_1 b._down_millis ∧
      T.LONGPRESS_TIMEOUT < sub32 m b._down_millis ∧
      tick T b m = ({ b with _processed := true }, dispatch b._long_cb Gesture.long true) := by
  by_cases hp : b._processed = true
  · rw [tick_of_processed T b m hp] at h; simp [quiet] at h
  have hp0 : b._processed = false := by simpa using hp
  by_cases hd : b._down_millis = 0
  · rw [tick_no_press T b m hp0 hd] at h; simp [quiet] at h
  by_cases hw : sub32 m b._up_millis_1 < T.DOUBLE_TIMEOUT
  · rw [tick_waiting T b m hp0 hd hw] at h; simp [quiet] at h
  by_cases hh : 2147483648 ≤ sub32 b._up_millis_1 b._down_millis
  · have e := tick_held T b m hp0 hd (by omega) hh
    by_cases hl : T.LONGPRESS_TIMEOUT < sub32 m b._down_millis
    · rw [if_pos hl] at e
      exact ⟨hp0, hd, by omega, hh, hl, e⟩
    · rw [if_neg hl] at e
      rw [e] at h; simp [quiet] at h
  · have e := tick_released T b m hp0 hd (by omega) (by omega)
    rw [e] at h
    revert h
    split_ifs <;> simp [quiet, dispatch]

/-- What is known when `tick()` reached the single-click dispatch. -/
theorem tick_single_inv (T : Timeouts) (b : InterruptButton) (m : Nat)
    (h : (tick T b m).2.gesture = some Gesture.single) :
    b._processed = false ∧ b._down_millis ≠ 0 ∧ T.DOUBLE_TIMEOUT ≤ sub32 m b._up_millis_1 ∧
      sub32 b._up_millis_1 b._down_millis < 2147483648 ∧
      sub32 b._up_millis_1 b._down_millis ≤ T.LONGPRESS_TIMEOUT ∧
      T.DOUBLE_TIMEOUT ≤ sub32 b._down_millis b._up_millis_0 ∧
      tick T b m = ({ b with _processed := true }, dispatch b._single_cb Gesture.single false) := by
  by_cases hp : b._processed = true
  · rw [tick_of_processed T b m hp] at h; simp [quiet] at h
  have hp0 : b._processed = false := by simpa using hp
  by_cases hd : b._down_millis = 0
  · rw [tick_no_press T b m hp0 hd] at h; simp [quiet] at h
  by_cases hw : sub32 m b._up_millis_1 < T.DOUBLE_TIMEOUT
  · rw [tick_waiting T b m hp0 hd hw] at h; simp [quiet] at h
  by_cases hh : 2147483648 ≤ sub32 b._up_millis_1 b._down_millis
  · have e := tick_held T b m hp0 hd (by omega) hh
    rw [e] at h
    revert h
    split_ifs <;> simp [quiet, dispatch]
  · have e := tick_released T b m hp0 hd (by omega) (by omega)
    by_cases hl : T.LONGPRESS_TIMEOUT < sub32 b._up_millis_1 b._down_millis
    · rw [if_pos hl] at e; rw [e] at h; simp [quiet] at h
    · rw [if_neg hl] at e
      by_cases hdb : sub32 b._down_millis b._up_millis_0 < T.DOUBLE_TIMEOUT
      · rw [if_pos hdb] at e; rw [e] at h; simp [dispatch] at h
      · rw [if_neg hdb] at e
        exact ⟨hp0, hd, by omega, by omega, by omega, by omega, e⟩

/-- What is known when `tick()` reached the double-click dispatch. -/
theorem tick_double_inv (T : Timeouts) (b : InterruptButton) (m : Nat)
    (h : (tick T b m).2.gesture = some Gesture.double) :
    b._processed = false ∧ b._down_millis ≠ 0 ∧ T.DOUBLE_TIMEOUT ≤ sub32 m b._up_millis_1 ∧
      sub32 b._up_millis_1 b._down_millis < 2147483648 ∧
      sub32 b._up_millis_1 b._down_millis ≤ T.LONGPRESS_TIMEOUT ∧
      sub32 b._down_millis b._up_millis_0 < T.DOUBLE_TIMEOUT ∧
      tick T b m = ({ b with _processed := true }, dispatch b._double_cb Gesture.double false) := by
  by_cases hp : b._processed = true
  · rw [tick_of_processed T b m hp] at h; simp [quiet] at h
  have hp0 : b._processed = false := by simpa using hp
  by_cases hd : b._down_millis = 0
  · rw [tick_no_press T b m hp0 hd] at h; simp [quiet] at h
  by_cases hw : sub32 m b._up_millis_1 < T.DOUBLE_TIMEOUT
  · rw [tick_waiting T b m hp0 hd hw] at h; simp [quiet] at h
  by_cases hh : 2147483648 ≤ sub32 b._up_millis_1 b._down_millis
  · have e := tick_held T b m hp0 hd (by omega) hh
    rw [e] at h
    revert h
    split_ifs <;> simp [quiet, dispatch]
  · have e := tick_released T b m hp0 hd (by omega) (by omega)
    by_cases hl : T.LONGPRESS_TIMEOUT < sub32 b._up_millis_1 b._down_millis
    · rw [if_pos hl] at e; rw [e] at h; simp [quiet] at h
    · rw [if_neg hl] at e
      by_cases hdb : sub32 b._down_millis b._up_millis_0 < T.DOUBLE_TIMEOUT
      · rw [if_pos hdb] at e
        exact ⟨hp0, hd, by omega, by omega, by omega, hdb, e⟩
      · rw [if_neg hdb] at e; rw [e] at h; simp [dispatch] at h

/-- Wrapping differences do not change when both clock values are shifted alike. -/
theorem sub32_shift (p a b : Nat) :
    sub32 ((p + a) % 4294967296) ((p + b) % 4294967296) = sub32 a b := by
  unfold sub32; omega

theorem sub32_shift_left (p a : Nat) (hp : p < 4294967296) :
    sub32 ((p + a) % 4294967296) p = sub32 a 0 := by
  unfold sub32; omega

theorem sub32_shift_right (p b : Nat) (hp : p < 4294967296) :
    sub32 p ((p + b) % 4294967296) = sub32 0 b := by
  unfold sub32; omega

/-- A recorded release more than `LONGPRESS_TIMEOUT` after the press: no dispatch. -/
theorem tick_late_release_quiet (T : Timeouts) (b : InterruptButton) (m : Nat)
    (h1 : sub32 b._up_millis_1 b._down_millis < 2147483648)
    (h2 : T.LONGPRESS_TIMEOUT < sub32 b._up_millis_1 b._down_millis) :
    (tick T b m).2.gesture = none := by
  rcases h : (tick T b m).2.gesture with _ | g
  · rfl
  · cases g with
    | single => have := (tick_single_inv T b m h).2.2.2.2.1; omega
    | double => have := (tick_double_inv T b m h).2.2.2.2.1; omega
    | long => have := (tick_long_inv T b m h).2.2.2.1; omega

/-- An edge that reads the inactive level is dropped or recorded as a release. -/
theorem handleInterrupt_release_cases (T : Timeouts) (b : InterruptButton) (m st : Nat)
    (hst : st ≠ b._level) :
    handleInterrupt T b m st = b ∨
      handleInterrupt T b m st =
        { b with _up_millis_0 := b._up_millis_1, _up_millis_1 := m % 4294967296,
                 _processed := false } := by
  unfold handleInterrupt
  by_cases h : sub32 (m % 4294967296) b._down_millis < T.DEBOUNCE_TIMEOUT
  · left; rw [if_pos h]
  · right; rw [if_neg h]; simp [hst]

/-- A click whose press is accepted less than `DOUBLE_TIMEOUT` after the recorded release
`_up_millis_1` and whose own release is accepted at most `LONGPRESS_TIMEOUT` later: polls
between the two edges do not matter for the object the release leaves, and from there
the first poll at least `DOUBLE_TIMEOUT` after the release reaches the double-click
dispatch. -/
theorem click_after_release (T : Timeouts) (b : InterruptButton) (p2 r2 st : Nat)
    (ps early later : List Nat) (n : Nat)
    (hT : T.LONGPRESS_TIMEOUT < 2147483648)
    (hp2 : p2 < 4294967296) (hp20 : p2 ≠ 0) (hr2 : r2 < 4294967296)
    (hpacc : T.DEBOUNCE_TIMEOUT ≤ sub32 p2 b._down_millis)
    (hnear : sub32 p2 b._up_millis_1 < T.DOUBLE_TIMEOUT)
    (hracc : T.DEBOUNCE_TIMEOUT ≤ sub32 r2 p2)
    (hclick : sub32 r2 p2 ≤ T.LONGPRESS_TIMEOUT)
    (hst : st ≠ b._level)
    (hearly : ∀ m ∈ early, sub32 m r2 < T.DOUBLE_TIMEOUT)
    (hn : T.DOUBLE_TIMEOUT ≤ sub32 n r2) :
    (run T b (Call.interrupt p2 b._level :: (polls ps ++ [Call.interrupt r2 st]))).1 =
      { b with _down_millis := p2, _up_millis_0 := b._up_millis_1, _up_millis_1 := r2,
               _processed := false } ∧
    run T { b with _down_millis := p2, _up_millis_0 := b._up_millis_1, _up_millis_1 := r2,
                   _processed := false }
        (polls early ++ Call.poll n :: polls later) =
      ({ b with _down_millis := p2, _up_millis_0 := b._up_millis_1, _up_millis_1 := r2,
                _processed := true },
        early.map (fun _ => quiet true) ++
          dispatch b._double_cb Gesture.double false :: later.map (fun _ => quiet false)) := by
  constructor
  · have inv := run_polls_invariant T
      (fun b1 => b1 = { b with _down_millis := p2, _processed := false } ∨
        b1 = { b with _down_millis := p2, _processed := true })
      (fun _ => True)
      (fun b1 m h1 => by
        refine ⟨?_, trivial⟩
        rcases h1 with h1 | h1
        · rcases tick_state_cases T b1 m with e1 | ⟨_, e1⟩
          · rw [e1]; exact Or.inl h1
          · rw [e1, h1]; exact Or.inr rfl
        · rw [tick_of_processed T b1 m (by rw [h1])]; exact Or.inr h1)
    rw [run_interrupt, handleInterrupt_press T b p2 b._level hp2 rfl hpacc, run_append]
    have a := (inv ps { b with _down_millis := p2, _processed := false } (Or.inl rfl)).1
    show (run T (handleInterrupt T _ r2 st) []).1 = _
    rcases a with a | a
    · rw [a, handleInterrupt_release T { b with _down_millis := p2, _processed := false }
        r2 st hr2 hst hracc]
      rfl
    · rw [a, handleInterrupt_release T { b with _down_millis := p2, _processed := true }
        r2 st hr2 hst hracc]
      rfl
  · have q : ∀ m ∈ early, tick T
        { b with _down_millis := p2, _up_millis_0 := b._up_millis_1, _up_millis_1 := r2,
                 _processed := false } m =
        ({ b with _down_millis := p2, _up_millis_0 := b._up_millis_1, _up_millis_1 := r2,
                  _processed := false }, quiet true) :=
      fun m hm => tick_waiting T
        { b with _down_millis := p2, _up_millis_0 := b._up_millis_1, _up_millis_1 := r2,
                 _processed := false } m rfl hp20 (hearly m hm)
    have e : tick T
        { b with _down_millis := p2, _up_millis_0 := b._up_millis_1, _up_millis_1 := r2,
                 _processed := false } n =
        ({ b with _down_millis := p2, _up_millis_0 := b._up_millis_1, _up_millis_1 := r2,
                  _processed := true }, dispatch b._double_cb Gesture.double false) := by
      rw [tick_released T
        { b with _down_millis := p2, _up_millis_0 := b._up_millis_1, _up_millis_1 := r2,
                 _processed := false } n rfl hp20 hn
        (by show sub32 r2 p2 < 2147483648; omega)]
      rw [if_neg (by show ¬ T.LONGPRESS_TIMEOUT < sub32 r2 p2; omega),
        if_pos (by show sub32 p2 b._up_millis_1 < T.DOUBLE_TIMEOUT; exact hnear)]
    rw [run_polls_const_append _ _ _ _ _ q, run_poll, e, run_polls_processed _ _ _ rfl]

/-! ## The interrupt handler -/

/-- C5: an edge whose wrapping distance to the last accepted press `_down_millis` is
below `DEBOUNCE_TIMEOUT` changes no member at all, whatever the pin reads; hence when a
press accepted at `d` is followed by an edge less than `DEBOUNCE_TIMEOUT` after `d`, the
object is exactly as the first press left it and `_down_millis` is still `d`. -/
theorem handleInterrupt_debounce (T : Timeouts) (b : InterruptButton) (millis state : Nat)
    (h : sub32 millis b._down_millis < T.DEBOUNCE_TIMEOUT) :
    handleInterrupt T b millis state = b ∧
    ∀ (b0 : InterruptButton) (d : Nat), d < 4294967296 →
      T.DEBOUNCE_TIMEOUT ≤ sub32 d b0._down_millis →
      b = handleInterrupt T b0 d b0._level →
      b._down_millis = d ∧ (handleInterrupt T b millis state)._down_millis = d := by
  have h1 : handleInterrupt T b millis state = b := by
    unfold handleInterrupt
    simp only [sub32_mod_left]
    rw [if_pos h]
  refine ⟨h1, ?_⟩
  intro b0 d hd hacc hb
  have hdown : b._down_millis = d := by
    rw [hb]
    unfold handleInterrupt
    simp only [sub32_mod_left]
    rw [if_neg (by omega)]
    simp [Nat.mod_eq_of_lt hd]
  rw [h1]
  exact ⟨hdown, hdown⟩

theorem handleInterrupt_debounce_witness :
    sub32 1005 (handleInterrupt defaultTimeouts (InterruptButton.new 2 0) 1000 0)._down_millis
        < defaultTimeouts.DEBOUNCE_TIMEOUT ∧
      handleInterrupt defaultTimeouts
          (handleInterrupt defaultTimeouts (InterruptButton.new 2 0) 1000 0) 1005 0 =
        handleInterrupt defaultTimeouts (InterruptButton.new 2 0) 1000 0 ∧
      (handleInterrupt defaultTimeouts (InterruptButton.new 2 0) 1000 0)._down_millis = 1000 :=
  ⟨by decide,
   (handleInterrupt_debounce defaultTimeouts
      (handleInterrupt defaultTimeouts (InterruptButton.new 2 0) 1000 0) 1005 0 (by decide)).1,
   ((handleInterrupt_debounce defaultTimeouts
      (handleInterrupt defaultTimeouts (InterruptButton.new 2 0) 1000 0) 1005 0 (by decide)).2
      (InterruptButton.new 2 0) 1000 (by decide) (by decide) rfl).1⟩

/-- C8: an edge at clock value `millis` whose wrapping distance to `_down_millis` is at
least `DEBOUNCE_TIMEOUT` is accepted. If the pin reads the active level, `_down_millis`
becomes `millis` and both release timestamps stay; otherwise `_up_millis_0` takes the old
`_up_millis_1`, `_up_millis_1` becomes `millis` and `_down_millis` stays. Either way
`_processed` is false afterwards and no other member changes. -/
theorem handleInterrupt_accepted (T : Timeouts) (b : InterruptButton) (millis state : Nat)
    (hm : millis < 4294967296)
    (h : T.DEBOUNCE_TIMEOUT ≤ sub32 millis b._down_millis) :
    (state = b._level →
      handleInterrupt T b millis state = { b with _down_millis := millis, _processed := false }) ∧
    (state ≠ b._level →
      handleInterrupt T b millis state =
        { b with _up_millis_0 := b._up_millis_1, _up_millis_1 := millis, _processed := false }) ∧
    (handleInterrupt T b millis state)._processed = false := by
  unfold handleInterrupt
  simp only [sub32_mod_left, Nat.mod_eq_of_lt hm]
  rw [if_neg (by omega)]
  refine ⟨?_, ?_, ?_⟩
  · intro hs; simp [hs]
  · intro hs; simp [hs]
  · rfl

theorem handleInterrupt_accepted_witness :
    handleInterrupt defaultTimeouts
        { InterruptButton.new 2 0 with _down_millis := 1000, _up_millis_1 := 700 } 1020 1 =
      { InterruptButton.new 2 0 with
        _down_millis := 1000, _up_millis_0 := 700, _up_millis_1 := 1020, _processed := false } :=
  (handleInterrupt_accepted defaultTimeouts
      { InterruptButton.new 2 0 with _down_millis := 1000, _up_millis_1 := 700 } 1020 1
      (by decide) (by decide)).2.1 (by decide)

/-! ## The poll -/

/-- C6: when `tick()` reaches a dispatch site (single, double or long), `_processed` is
true afterwards, and every later sequence of `tick()` calls with no interrupt in between,
at any clock values, returns false each time, reaches no dispatch site and leaves the
object unchanged. More generally `tick()` on any object with `_processed` true returns
false, dispatches nothing and changes nothing. -/
theorem tick_idempotent (T : Timeouts) (b : InterruptButton) (millis : Nat) :
    (b._processed = true → tick T b millis = (b, quiet false)) ∧
    ∀ g : Gesture, (tick T b millis).2.gesture = some g →
      (tick T b millis).1._processed = true ∧
      (∀ m : Nat, tick T (tick T b millis).1 m = ((tick T b millis).1, quiet false)) ∧
      ∀ ms : List Nat, run T (tick T b millis).1 (polls ms) =
        ((tick T b millis).1, ms.map (fun _ => quiet false)) := by
  refine ⟨tick_of_processed T b millis, ?_⟩
  intro g hg
  have hp : (tick T b millis).1._processed = true := by
    revert hg
    simp only [tick]
    split_ifs <;> simp [quiet, dispatch]
  exact ⟨hp, fun m => tick_of_processed T _ m hp, fun ms => run_polls_processed T _ ms hp⟩

theorem tick_idempotent_witness :
    (tick defaultTimeouts
        { InterruptButton.new 2 0 with
          _down_millis := 1000, _up_millis_1 := 1050, _processed := false } 1250).2.gesture
        = some Gesture.single ∧
      (tick defaultTimeouts
        { InterruptButton.new 2 0 with
          _down_millis := 1000, _up_millis_1 := 1050, _processed := false } 1250).1._processed
        = true :=
  ⟨by decide,
   ((tick_idempotent defaultTimeouts
      { InterruptButton.new 2 0 with
        _down_millis := 1000, _up_millis_1 := 1050, _processed := false } 1250).2
      Gesture.single (by decide)).1⟩

/-- C7 as stated fails: with `_processed` false and `_down_millis` 0 the call returns
true and leaves `_processed` false. -/
theorem tick_unset_press_not_cleared :
    tick defaultTimeouts { InterruptButton.new 2 0 with _processed := false } 5000 =
      ({ InterruptButton.new 2 0 with _processed := false }, quiet true) ∧
    ¬ ((tick defaultTimeouts { InterruptButton.new 2 0 with _processed := false } 5000).1._processed
          = true ∧
        (tick defaultTimeouts { InterruptButton.new 2 0 with _processed := false } 5000).2.ret
          = false) := by
  decide

/-- C7, amended: with `_processed` false and `_down_millis` 0, `tick()` at any clock value
returns true, reaches no dispatch site and changes no member (`_processed` stays false). -/
theorem tick_unset_press (T : Timeouts) (b : InterruptButton) (millis : Nat)
    (hp : b._processed = false) (hd : b._down_millis = 0) :
    tick T b millis = (b, quiet true) := by
  unfold tick; simp [hp, hd]

theorem tick_unset_press_witness :
    tick defaultTimeouts
        { InterruptButton.new 2 0 with _up_millis_1 := 3000, _processed := false } 3500 =
      ({ InterruptButton.new 2 0 with _up_millis_1 := 3000, _processed := false }, quiet true) :=
  tick_unset_press defaultTimeouts
    { InterruptButton.new 2 0 with _up_millis_1 := 3000, _processed := false } 3500 rfl rfl

/-- C9: with `_processed` false, `_down_millis` non-zero, the release recorded after the
press (`_up_millis_1 - _down_millis` below 2^31, wrapping) and at least `DOUBLE_TIMEOUT`
elapsed since `_up_millis_1`, `tick()` sets `_processed`, changes nothing else and returns
false; it dispatches nothing when `_up_millis_1 - _down_millis > LONGPRESS_TIMEOUT`, else
double when `_down_millis - _up_millis_0 < DOUBLE_TIMEOUT`, else single. A click released
exactly `LONGPRESS_TIMEOUT` after its press is therefore still dispatched as a click. -/
theorem tick_finalise (T : Timeouts) (b : InterruptButton) (millis : Nat)
    (hp : b._processed = false) (hd : b._down_millis ≠ 0)
    (hrel : sub32 b._up_millis_1 b._down_millis < 2147483648)
    (hgap : T.DOUBLE_TIMEOUT ≤ sub32 millis b._up_millis_1) :
    tick T b millis =
      ({ b with _processed := true },
        if T.LONGPRESS_TIMEOUT < sub32 b._up_millis_1 b._down_millis then quiet false
        else if sub32 b._down_millis b._up_millis_0 < T.DOUBLE_TIMEOUT then
          dispatch b._double_cb Gesture.double false
        else dispatch b._single_cb Gesture.single false) ∧
    (sub32 b._up_millis_1 b._down_millis = T.LONGPRESS_TIMEOUT →
      (tick T b millis).2.gesture = some Gesture.double ∨
      (tick T b millis).2.gesture = some Gesture.single) := by
  have hmain := tick_released T b millis hp hd hgap hrel
  refine ⟨hmain, ?_⟩
  intro hexact
  rw [hmain]
  simp only
  rw [if_neg (by omega)]
  split_ifs <;> simp [dispatch]

theorem tick_finalise_witness :
    tick defaultTimeouts
        { InterruptButton.new 2 0 with
          _down_millis := 5000, _up_millis_1 := 6000, _up_millis_0 := 300, _processed := false }
        6200 =
      ({ InterruptButton.new 2 0 with
          _down_millis := 5000, _up_millis_1 := 6000, _up_millis_0 := 300, _processed := true },
        dispatch false Gesture.single false) :=
  (tick_finalise defaultTimeouts
      { InterruptButton.new 2 0 with
        _down_millis := 5000, _up_millis_1 := 6000, _up_millis_0 := 300, _processed := false }
      6200 rfl (by decide) (by decide) (by decide)).1

/-- C10: with the default timeouts, `_processed` false, `_down_millis` non-zero and the
button still down (`_up_millis_1 - _down_millis` at least 2^31, wrapping), a `tick()` at a
clock value more than `LONGPRESS_TIMEOUT` and less than 2^31 after `_down_millis` reaches
the long-press dispatch, sets `_processed` and changes no timestamp; a `tick()` exactly
`LONGPRESS_TIMEOUT` after `_down_millis` dispatches nothing and changes nothing. -/
theorem tick_long_press (b : InterruptButton) (millis : Nat)
    (hp : b._processed = false) (hd : b._down_millis ≠ 0)
    (hdown : 2147483648 ≤ sub32 b._up_millis_1 b._down_millis)
    (hheld : defaultTimeouts.LONGPRESS_TIMEOUT < sub32 millis b._down_millis)
    (hhalf : sub32 millis b._down_millis < 2147483648) :
    tick defaultTimeouts b millis =
      ({ b with _processed := true }, dispatch b._long_cb Gesture.long true) ∧
    ∀ m : Nat, sub32 m b._down_millis = defaultTimeouts.LONGPRESS_TIMEOUT →
      tick defaultTimeouts b m = (b, quiet false) := by
  constructor
  · unfold tick
    simp only [sub32_mod_left]
    have h1 : ¬ sub32 millis b._up_millis_1 < defaultTimeouts.DOUBLE_TIMEOUT := by
      simp only [defaultTimeouts, sub32] at *
      omega
    rw [if_neg (by simp [hp]), if_neg hd, if_neg h1, if_pos hdown, if_pos hheld]
  · intro m hm
    unfold tick
    simp only [sub32_mod_left]
    have h1 : ¬ sub32 m b._up_millis_1 < defaultTimeouts.DOUBLE_TIMEOUT := by
      simp only [defaultTimeouts, sub32] at *
      omega
    rw [if_neg (by simp [hp]), if_neg hd, if_neg h1, if_pos hdown, if_neg (by omega)]

theorem tick_long_press_witness :
    tick defaultTimeouts
        { InterruptButton.new 2 0 with
          _down_millis := 5000, _up_millis_1 := 4000, _long_cb := true, _processed := false } 6001 =
      ({ InterruptButton.new 2 0 with
          _down_millis := 5000, _up_millis_1 := 4000, _long_cb := true, _processed := true }, dispatch true Gesture.long true) :=
  (tick_long_press
      { InterruptButton.new 2 0 with
        _down_millis := 5000, _up_millis_1 := 4000, _long_cb := true, _processed := false } 6001 rfl (by decide) (by decide) (by decide)
      (by decide)).1

/-! ## Scenarios on a freshly constructed object -/

/-- C1 as stated fails: the press at clock value 0 is dropped by the debounce test
(`0 - 0 < 20`), the release at 50 is accepted, and every later `tick()` stops at the
guard `_down_millis == 0`: it returns true and the single-click dispatch is never reached. -/
theorem single_click_at_zero_never_classified :
    run defaultTimeouts (setup 2 0 true true true)
        [Call.interrupt 0 0, Call.interrupt 50 1, Call.poll 251, Call.poll 5000] =
      ({ setup 2 0 true true true with _up_millis_1 := 50, _processed := false },
        [quiet true, quiet true]) := by
  decide

/-- C1, amended: on a freshly constructed object with the default timeouts, a press edge
at clock value `p` with `200 ≤ p` and a release edge at `p + 50`, with no further edge:
every `tick()` before `p + 250` returns true without dispatching, the first `tick()` at or
after `p + 250` reaches the single-click dispatch, sets `_processed` and returns false, and
every later `tick()` returns false and dispatches nothing. -/
theorem single_click (pin level state : Nat) (s d l : Bool) (p n : Nat) (early later : List Nat)
    (hst : state ≠ level) (hp : 200 ≤ p)
    (hearly : ∀ m ∈ early, p + 50 ≤ m ∧ m < p + 250)
    (hn : p + 250 ≤ n) (hn32 : n < 4294967296) :
    run defaultTimeouts (setup pin level s d l)
        (Call.interrupt p level :: Call.interrupt (p + 50) state ::
          (polls early ++ Call.poll n :: polls later)) =
      ({ setup pin level s d l with _down_millis := p, _up_millis_1 := p + 50, _processed := true },
        early.map (fun _ => quiet true) ++
          dispatch s Gesture.single false :: later.map (fun _ => quiet false)) := by
  have e1 : handleInterrupt defaultTimeouts (setup pin level s d l) p level =
      { setup pin level s d l with _down_millis := p, _processed := false } :=
    handleInterrupt_press defaultTimeouts _ p level (by omega) rfl
      (by show 20 ≤ sub32 p 0; unfold sub32; omega)
  have e2 : handleInterrupt defaultTimeouts
      { setup pin level s d l with _down_millis := p, _processed := false } (p + 50) state =
      { setup pin level s d l with
        _down_millis := p, _up_millis_1 := p + 50, _processed := false } :=
    handleInterrupt_release defaultTimeouts _ (p + 50) state (by omega) hst
      (by show 20 ≤ sub32 (p + 50) p; unfold sub32; omega)
  have e3 : ∀ m ∈ early, tick defaultTimeouts
      { setup pin level s d l with
        _down_millis := p, _up_millis_1 := p + 50, _processed := false } m =
      ({ setup pin level s d l with
        _down_millis := p, _up_millis_1 := p + 50, _processed := false }, quiet true) := by
    intro m hm
    have := hearly m hm
    exact tick_waiting defaultTimeouts _ m rfl (by show p ≠ 0; omega)
      (by show sub32 m (p + 50) < 200; unfold sub32; omega)
  have e4 : tick defaultTimeouts
      { setup pin level s d l with
        _down_millis := p, _up_millis_1 := p + 50, _processed := false } n =
      ({ setup pin level s d l with
        _down_millis := p, _up_millis_1 := p + 50, _processed := true },
        dispatch s Gesture.single false) := by
    rw [tick_released defaultTimeouts _ n rfl (by show p ≠ 0; omega)
      (by show 200 ≤ sub32 n (p + 50); unfold sub32; omega)
      (by show sub32 (p + 50) p < 2147483648; unfold sub32; omega)]
    rw [if_neg (by show ¬ 1000 < sub32 (p + 50) p; unfold sub32; omega),
      if_neg (by show ¬ sub32 p 0 < 200; unfold sub32; omega)]
    rfl
  rw [run_interrupt, e1, run_interrupt, e2, run_polls_const_append _ _ _ _ _ e3, run_poll, e4,
    run_polls_processed _ _ _ rfl]

theorem single_click_witness :
    run defaultTimeouts (setup 2 0 true false false)
        (Call.interrupt 1000 0 :: Call.interrupt (1000 + 50) 1 ::
          (polls [1100, 1249] ++ Call.poll 1250 :: polls [1250, 9000])) =
      ({ setup 2 0 true false false with
          _down_millis := 1000, _up_millis_1 := 1000 + 50, _processed := true },
        [1100, 1249].map (fun _ => quiet true) ++
          dispatch true Gesture.single false :: [1250, 9000].map (fun _ => quiet false)) :=
  single_click 2 0 1 true false false 1000 1250 [1100, 1249] [1250, 9000]
    (by decide) (by decide) (by decide) (by decide) (by decide)

/-- C2: on a freshly constructed object with the default timeouts and the edges press@0,
release@50, press@100, release@150, for every schedule of polls placed before, between and
after the edges (those between the second press and its release at clock values in
[100, 150], those after the last release at clock values from 150 on), no `tick()` before
clock value 350 reaches a dispatch site, the first `tick()` at or after 350 reaches the
double-click dispatch, sets `_processed` and returns false, and every later `tick()`
returns false and dispatches nothing: double is the only gesture of the whole run. -/
theorem double_click (pin level state : Nat) (s d l : Bool)
    (ps0 ps1 ps2 ps3 early later : List Nat) (n : Nat)
    (hst : state ≠ level)
    (h3 : ∀ m ∈ ps3, 100 ≤ m ∧ m ≤ 150)
    (hearly : ∀ m ∈ early, 150 ≤ m ∧ m < 350)
    (hn : 350 ≤ n) (hn32 : n < 4294967296) :
    run defaultTimeouts (setup pin level s d l)
        (polls ps0 ++ Call.interrupt 0 level ::
          (polls ps1 ++ Call.interrupt 50 state ::
            (polls ps2 ++ Call.interrupt 100 level ::
              (polls ps3 ++ Call.interrupt 150 state ::
                (polls early ++ Call.poll n :: polls later))))) =
      ({ setup pin level s d l with
          _down_millis := 100, _up_millis_0 := 50, _up_millis_1 := 150, _processed := true },
        ps0.map (fun _ => quiet false) ++ (ps1.map (fun _ => quiet false) ++
          (ps2.map (fun _ => quiet true) ++ (ps3.map (fun _ => quiet true) ++
            (early.map (fun _ => quiet true) ++
              dispatch d Gesture.double false :: later.map (fun _ => quiet false)))))) := by
  have q0 : ∀ ms : List Nat, ∀ m ∈ ms, tick defaultTimeouts (setup pin level s d l) m =
      (setup pin level s d l, quiet false) :=
    fun _ m _ => tick_of_processed defaultTimeouts _ m rfl
  have e0 : handleInterrupt defaultTimeouts (setup pin level s d l) 0 level =
      setup pin level s d l :=
    handleInterrupt_bounce defaultTimeouts _ 0 level (by show sub32 0 0 < 20; decide)
  have e1 : handleInterrupt defaultTimeouts (setup pin level s d l) 50 state =
      { setup pin level s d l with _up_millis_1 := 50, _processed := false } :=
    handleInterrupt_release defaultTimeouts _ 50 state (by omega) hst
      (by show 20 ≤ sub32 50 0; decide)
  have q2 : ∀ m ∈ ps2, tick defaultTimeouts
      { setup pin level s d l with _up_millis_1 := 50, _processed := false } m =
      ({ setup pin level s d l with _up_millis_1 := 50, _processed := false }, quiet true) :=
    fun m _ => tick_no_press defaultTimeouts _ m rfl rfl
  have e2 : handleInterrupt defaultTimeouts
      { setup pin level s d l with _up_millis_1 := 50, _processed := false } 100 level =
      { setup pin level s d l with
        _down_millis := 100, _up_millis_1 := 50, _processed := false } :=
    handleInterrupt_press defaultTimeouts _ 100 level (by omega) rfl
      (by show 20 ≤ sub32 100 0; decide)
  have q3 : ∀ m ∈ ps3, tick defaultTimeouts
      { setup pin level s d l with
        _down_millis := 100, _up_millis_1 := 50, _processed := false } m =
      ({ setup pin level s d l with
        _down_millis := 100, _up_millis_1 := 50, _processed := false }, quiet true) := by
    intro m hm
    have := h3 m hm
    exact tick_waiting defaultTimeouts _ m rfl (by show 100 ≠ 0; decide)
      (by show sub32 m 50 < 200; unfold sub32; omega)
  have e3 : handleInterrupt defaultTimeouts
      { setup pin level s d l with
        _down_millis := 100, _up_millis_1 := 50, _processed := false } 150 state =
      { setup pin level s d l with
        _down_millis := 100, _up_millis_0 := 50, _up_millis_1 := 150, _processed := false } :=
    handleInterrupt_release defaultTimeouts _ 150 state (by omega) hst
      (by show 20 ≤ sub32 150 100; decide)
  have q4 : ∀ m ∈ early, tick defaultTimeouts
      { setup pin level s d l with
        _down_millis := 100, _up_millis_0 := 50, _up_millis_1 := 150, _processed := false } m =
      ({ setup pin level s d l with
        _down_millis := 100, _up_millis_0 := 50, _up_millis_1 := 150, _processed := false },
        quiet true) := by
    intro m hm
    have := hearly m hm
    exact tick_waiting defaultTimeouts _ m rfl (by show 100 ≠ 0; decide)
      (by show sub32 m 150 < 200; unfold sub32; omega)
  have e4 : tick defaultTimeouts
      { setup pin level s d l with
        _down_millis := 100, _up_millis_0 := 50, _up_millis_1 := 150, _processed := false } n =
      ({ setup pin level s d l with
        _down_millis := 100, _up_millis_0 := 50, _up_millis_1 := 150, _processed := true },
        dispatch d Gesture.double false) := by
    rw [tick_released defaultTimeouts _ n rfl (by show 100 ≠ 0; decide)
      (by show 200 ≤ sub32 n 150; unfold sub32; omega)
      (by show sub32 150 100 < 2147483648; decide)]
    rw [if_neg (by show ¬ 1000 < sub32 150 100; decide),
      if_pos (by show sub32 100 50 < 200; decide)]
    rfl
  rw [run_polls_const_append _ _ _ _ _ (q0 ps0), run_interrupt, e0,
    run_polls_const_append _ _ _ _ _ (q0 ps1), run_interrupt, e1,
    run_polls_const_append _ _ _ _ _ q2, run_interrupt, e2,
    run_polls_const_append _ _ _ _ _ q3, run_interrupt, e3,
    run_polls_const_append _ _ _ _ _ q4, run_poll, e4,
    run_polls_processed _ _ _ rfl]

theorem double_click_witness :
    run defaultTimeouts (setup 2 0 true true true)
        (polls [0] ++ Call.interrupt 0 0 ::
          (polls [10, 49] ++ Call.interrupt 50 1 ::
            (polls [60] ++ Call.interrupt 100 0 ::
              (polls [100, 120, 150] ++ Call.interrupt 150 1 ::
                (polls [150, 349] ++ Call.poll 350 :: polls [351, 40000]))))) =
      ({ setup 2 0 true true true with
          _down_millis := 100, _up_millis_0 := 50, _up_millis_1 := 150, _processed := true },
        [0].map (fun _ => quiet false) ++ ([10, 49].map (fun _ => quiet false) ++
          ([60].map (fun _ => quiet true) ++ ([100, 120, 150].map (fun _ => quiet true) ++
            ([150, 349].map (fun _ => quiet true) ++
              dispatch true Gesture.double false ::
                [351, 40000].map (fun _ => quiet false)))))) :=
  double_click 2 0 1 true true true [0] [10, 49] [60] [100, 120, 150] [150, 349] [351, 40000] 350
    (by decide) (by decide) (by decide) (by decide) (by decide)

/-- C3 as stated fails: on a fresh object the press at clock value 0 is dropped by the
debounce test (`0 - 0 < 20`), `_processed` stays true and the `tick()` at 1001 returns
false without reaching the long-press dispatch. -/
theorem long_press_at_zero_never_classified :
    run defaultTimeouts (setup 2 0 true true true) [Call.interrupt 0 0, Call.poll 1001] =
      (setup 2 0 true true true, [quiet false]) := by
  decide

/-- C3, amended: on a freshly constructed object with the default timeouts, after a press
edge at clock value `p` with `20 ≤ p ≤ 2^31` and no release edge, the `tick()` at
`p + 1001` reaches the long-press dispatch and sets `_processed`, and every further
`tick()` while the button is held reaches no dispatch site and changes nothing. -/
theorem long_press (pin level : Nat) (s d l : Bool) (p : Nat) (later : List Nat)
    (hp : 20 ≤ p) (hp31 : p ≤ 2147483648) :
    run defaultTimeouts (setup pin level s d l)
        (Call.interrupt p level :: Call.poll (p + 1001) :: polls later) =
      ({ setup pin level s d l with _down_millis := p, _processed := true },
        dispatch l Gesture.long true :: later.map (fun _ => quiet false)) := by
  have e1 : handleInterrupt defaultTimeouts (setup pin level s d l) p level =
      { setup pin level s d l with _down_millis := p, _processed := false } :=
    handleInterrupt_press defaultTimeouts _ p level (by omega) rfl
      (by show 20 ≤ sub32 p 0; unfold sub32; omega)
  have e2 : tick defaultTimeouts
      { setup pin level s d l with _down_millis := p, _processed := false } (p + 1001) =
      ({ setup pin level s d l with _down_millis := p, _processed := true },
        dispatch l Gesture.long true) := by
    rw [tick_held defaultTimeouts _ (p + 1001) rfl (by show p ≠ 0; omega)
      (by show 200 ≤ sub32 (p + 1001) 0; unfold sub32; omega)
      (by show 2147483648 ≤ sub32 0 p; unfold sub32; omega)]
    rw [if_pos (by show 1000 < sub32 (p + 1001) p; unfold sub32; omega)]
    rfl
  rw [run_interrupt, e1, run_poll, e2, run_polls_processed _ _ _ rfl]

theorem long_press_witness :
    run defaultTimeouts (setup 2 0 false false true)
        (Call.interrupt 20 0 :: Call.poll (20 + 1001) :: polls [1022, 5000]) =
      ({ setup 2 0 false false true with _down_millis := 20, _processed := true },
        dispatch true Gesture.long true :: [1022, 5000].map (fun _ => quiet false)) :=
  long_press 2 0 false false true 20 [1022, 5000] (by decide) (by decide)

/-- C4 fails on the code: after a press accepted at 1000 and still held, `tick()` at 1500
returns false, yet with no edge in between `tick()` at 2001 calls the long-press callback
and sets `_processed`. A loop that sleeps after the false return until the release edge
at 3000 gets no callback at all for the two-second hold. -/
theorem tick_false_while_held_then_long :
    run defaultTimeouts (setup 2 0 true true true)
        [Call.interrupt 1000 0, Call.poll 1500, Call.poll 2001] =
      ({ setup 2 0 true true true with _down_millis := 1000, _processed := true },
        [quiet false, dispatch true Gesture.long true]) ∧
    run defaultTimeouts (setup 2 0 true true true)
        [Call.interrupt 1000 0, Call.poll 1500, Call.interrupt 3000 1, Call.poll 3000,
          Call.poll 3200, Call.poll 9000] =
      ({ setup 2 0 true true true with
          _down_millis := 1000, _up_millis_1 := 3000, _processed := true },
        [quiet false, quiet true, quiet false, quiet false]) := by
  decide

/-! ## Further facts about the poll -/

/-- C11 fails on the code: after a press accepted at 1000 and still held (the most
recent release, 0, predates the press), `tick()` at 1500, a held duration of 500 which
is at most `LONGPRESS_TIMEOUT`, dispatches nothing and changes nothing but returns false,
not true. -/
theorem tick_held_undecided_returns_false :
    run defaultTimeouts (setup 2 0 true true true) [Call.interrupt 1000 0] =
      ({ setup 2 0 true true true with _down_millis := 1000, _processed := false }, []) ∧
    2147483648 ≤ sub32 0 1000 ∧
    sub32 1500 1000 ≤ defaultTimeouts.LONGPRESS_TIMEOUT ∧
    tick defaultTimeouts
        { setup 2 0 true true true with _down_millis := 1000, _processed := false } 1500 =
      ({ setup 2 0 true true true with _down_millis := 1000, _processed := false },
        quiet false) := by
  decide

/-- C12: with `_processed` false and `_down_millis` non-zero, a `tick()` at a clock value
less than `DOUBLE_TIMEOUT` after `_up_millis_1` (wrapping) returns true, reaches no
dispatch site and changes no member, so `_processed` stays false: nothing is dispatched
earlier than `DOUBLE_TIMEOUT` after the recorded release. -/
theorem tick_double_window_wait (T : Timeouts) (b : InterruptButton) (millis : Nat)
    (hp : b._processed = false) (hd : b._down_millis ≠ 0)
    (h : sub32 millis b._up_millis_1 < T.DOUBLE_TIMEOUT) :
    tick T b millis = (b, quiet true) ∧ (tick T b millis).2.ret = true ∧
      (tick T b millis).2.gesture = none ∧ (tick T b millis).1._processed = false := by
  have e := tick_waiting T b millis hp hd h
  rw [e]
  exact ⟨rfl, rfl, rfl, hp⟩

theorem tick_double_window_wait_witness :
    tick defaultTimeouts
        { InterruptButton.new 2 0 with
          _down_millis := 1000, _up_millis_1 := 1050, _processed := false } 1249 =
      ({ InterruptButton.new 2 0 with
          _down_millis := 1000, _up_millis_1 := 1050, _processed := false }, quiet true) :=
  (tick_double_window_wait defaultTimeouts
      { InterruptButton.new 2 0 with
        _down_millis := 1000, _up_millis_1 := 1050, _processed := false } 1249
      rfl (by decide) (by decide)).1

/-- C15: for every object and clock value, `tick()` leaves `_up_millis_0`, `_up_millis_1`
and `_down_millis` as they are; the object afterwards is either unchanged or differs only
in `_processed`, which then went from false to true (never from true to false); and a
call that reaches a dispatch site reaches exactly the one recorded in its result and is
a call that set `_processed`. -/
theorem tick_frame (T : Timeouts) (b : InterruptButton) (millis : Nat) :
    (tick T b millis).1._up_millis_0 = b._up_millis_0 ∧
    (tick T b millis).1._up_millis_1 = b._up_millis_1 ∧
    (tick T b millis).1._down_millis = b._down_millis ∧
    ((tick T b millis).1 = b ∨
      (b._processed = false ∧ (tick T b millis).1 = { b with _processed := true })) ∧
    (b._processed = true → (tick T b millis).1._processed = true) ∧
    ∀ g : Gesture, (tick T b millis).2.gesture = some g →
      b._processed = false ∧ (tick T b millis).1 = { b with _processed := true } := by
  have hc := tick_state_cases T b millis
  refine ⟨?_, ?_, ?_, hc, ?_, ?_⟩
  · rcases hc with e | ⟨_, e⟩ <;> rw [e]
  · rcases hc with e | ⟨_, e⟩ <;> rw [e]
  · rcases hc with e | ⟨_, e⟩ <;> rw [e]
  · intro hp
    rw [tick_of_processed T b millis hp]
    exact hp
  · intro g
    simp only [tick]
    split_ifs <;> simp_all [quiet, dispatch]

/-- C18: a press edge at clock value 0 is accepted whenever `0 - _down_millis` (wrapping)
is at least `DEBOUNCE_TIMEOUT`, and stores 0 in `_down_millis`. In every state with
`_processed` false and `_down_millis` 0, `tick()` returns true at every clock value,
dispatches nothing and changes no member; and along any sequence of polls and edges in
which no press edge is accepted, every `tick()` returns true without dispatching and the
object stays in such a state. -/
theorem press_at_clock_zero (T : Timeouts) (b : InterruptButton) :
    (T.DEBOUNCE_TIMEOUT ≤ sub32 0 b._down_millis →
      handleInterrupt T b 0 b._level = { b with _down_millis := 0, _processed := false }) ∧
    (b._processed = false → b._down_millis = 0 →
      (∀ m : Nat, tick T b m = (b, quiet true)) ∧
      ∀ cs : List Call,
        (∀ m st : Nat, Call.interrupt m st ∈ cs →
          st ≠ b._level ∨ sub32 m 0 < T.DEBOUNCE_TIMEOUT) →
        (∀ r ∈ (run T b cs).2, r = quiet true) ∧
          (run T b cs).1._processed = false ∧ (run T b cs).1._down_millis = 0) := by
  refine ⟨fun h => handleInterrupt_press T b 0 b._level (by decide) rfl h, ?_⟩
  intro hp hd
  refine ⟨fun m => tick_no_press T b m hp hd, ?_⟩
  intro cs
  have key : ∀ (cs : List Call) (b1 : InterruptButton),
      b1._processed = false → b1._down_millis = 0 → b1._level = b._level →
      (∀ m st : Nat, Call.interrupt m st ∈ cs →
          st ≠ b._level ∨ sub32 m 0 < T.DEBOUNCE_TIMEOUT) →
      (∀ r ∈ (run T b1 cs).2, r = quiet true) ∧
        (run T b1 cs).1._processed = false ∧ (run T b1 cs).1._down_millis = 0 := by
    intro cs
    induction cs with
    | nil => intro b1 h1 h2 _ _; simp [run, h1, h2]
    | cons c cs ih =>
      intro b1 h1 h2 h3 hall
      have hall1 : ∀ m st : Nat, Call.interrupt m st ∈ cs →
          st ≠ b._level ∨ sub32 m 0 < T.DEBOUNCE_TIMEOUT :=
        fun m st hm => hall m st (List.mem_cons_of_mem _ hm)
      cases c with
      | interrupt m st =>
        rw [run_interrupt]
        rcases hall m st (by simp) with hst | hdrop
        · by_cases hacc : sub32 m b1._down_millis < T.DEBOUNCE_TIMEOUT
          · rw [handleInterrupt_bounce T b1 m st hacc]
            exact ih b1 h1 h2 h3 hall1
          · have e : handleInterrupt T b1 m st =
                { b1 with _up_millis_0 := b1._up_millis_1,
                          _up_millis_1 := m % 4294967296, _processed := false } := by
              unfold handleInterrupt
              simp only [sub32_mod_left]
              rw [if_neg hacc, if_neg (by rw [h3]; exact hst)]
            rw [e]
            exact ih _ rfl h2 h3 hall1
        · rw [handleInterrupt_bounce T b1 m st (by rw [h2]; exact hdrop)]
          exact ih b1 h1 h2 h3 hall1
      | poll m =>
        rw [run_poll, tick_no_press T b1 m h1 h2]
        have r := ih b1 h1 h2 h3 hall1
        refine ⟨?_, r.2⟩
        intro x hx
        rcases List.mem_cons.mp hx with e | e
        · exact e
        · exact r.1 x e
  exact key cs b hp hd rfl

theorem press_at_clock_zero_witness :
    handleInterrupt defaultTimeouts
        { InterruptButton.new 2 0 with _down_millis := 4294966000, _up_millis_1 := 4294966100 } 0 0 =
      { InterruptButton.new 2 0 with
        _down_millis := 0, _up_millis_1 := 4294966100, _processed := false } ∧
    (run defaultTimeouts
        { InterruptButton.new 2 0 with _up_millis_1 := 4294966100, _processed := false }
        [Call.poll 10, Call.interrupt 50 1, Call.poll 250, Call.poll 5000]).2 =
      [quiet true, quiet true, quiet true] :=
  ⟨(press_at_clock_zero defaultTimeouts
      { InterruptButton.new 2 0 with _down_millis := 4294966000, _up_millis_1 := 4294966100 }).1
      (by decide),
   by decide⟩

/-- C20: with `_processed` false, `_down_millis` non-zero and `_up_millis_1 - _down_millis`
(wrapping) below 2^31, so that the press follows the most recent release by more than
2^31 ms, `tick()` takes the held button for a released one: at every clock value at least
`DOUBLE_TIMEOUT` after `_up_millis_1` it sets `_processed` and returns false, and it
dispatches nothing when `_up_millis_1 - _down_millis > LONGPRESS_TIMEOUT`. No `tick()`
on such an object, at any clock value and however often it is called, reaches the
long-press dispatch. -/
theorem tick_half_range (T : Timeouts) (b : InterruptButton) (millis : Nat)
    (hp : b._processed = false) (hd : b._down_millis ≠ 0)
    (hnz : sub32 b._up_millis_1 b._down_millis ≠ 0)
    (hlt : sub32 b._up_millis_1 b._down_millis < 2147483648)
    (hgap : T.DOUBLE_TIMEOUT ≤ sub32 millis b._up_millis_1) :
    (tick T b millis).1 = { b with _processed := true } ∧
    (tick T b millis).2.ret = false ∧
    (T.LONGPRESS_TIMEOUT < sub32 b._up_millis_1 b._down_millis →
      tick T b millis = ({ b with _processed := true }, quiet false)) ∧
    (∀ m : Nat, (tick T b m).2.gesture ≠ some Gesture.long) ∧
    ∀ ms : List Nat, ∀ r ∈ (run T b (polls ms)).2, r.gesture ≠ some Gesture.long := by
  have _ := hnz
  have e := tick_released T b millis hp hd hgap hlt
  have nolong : ∀ (b1 : InterruptButton) (m : Nat),
      sub32 b1._up_millis_1 b1._down_millis < 2147483648 →
      (tick T b1 m).2.gesture ≠ some Gesture.long := by
    intro b1 m h1 hl
    have := (tick_long_inv T b1 m hl).2.2.2.1
    omega
  refine ⟨?_, ?_, ?_, fun m => nolong b m hlt, ?_⟩
  · rw [e]
  · rw [e]; simp only; split_ifs <;> rfl
  · intro hl; rw [e, if_pos hl]
  · intro ms
    have inv := run_polls_invariant T
      (fun b1 => sub32 b1._up_millis_1 b1._down_millis < 2147483648)
      (fun r => r.gesture ≠ some Gesture.long)
      (fun b1 m h1 => by
        refine ⟨?_, nolong b1 m h1⟩
        rcases tick_state_cases T b1 m with e1 | ⟨_, e1⟩ <;> rw [e1] <;> exact h1)
    exact (inv ms b hlt).2

theorem tick_half_range_witness :
    tick defaultTimeouts
        (handleInterrupt defaultTimeouts (setup 2 0 true true true) 3000000000 0) 3000005000 =
      ({ setup 2 0 true true true with _down_millis := 3000000000, _processed := true },
        quiet false) := by
  have h := (tick_half_range defaultTimeouts
      (handleInterrupt defaultTimeouts (setup 2 0 true true true) 3000000000 0) 3000005000
      (by decide) (by decide) (by decide) (by decide) (by decide)).2.2.1 (by decide)
  rw [h]
  decide

/-- C13: a press at clock value `p` with the release recorded `g` later, the previous
release at offset `q` from the press and the poll at offset `n` from the press (all
sums taken modulo 2^32) gets from `tick()` the same return value, the same dispatch (or
none) and the same `_processed` flag as the same situation at any other press time
`p'`, as long as neither press time is the value 0; in particular a press shortly
before the clock wraps, released after the wrap, is treated like one far from the wrap. -/
theorem tick_wraparound (T : Timeouts) (b : InterruptButton) (p p' g q n : Nat)
    (hp : p < 4294967296) (hp' : p' < 4294967296) (h0 : p ≠ 0) (h0' : p' ≠ 0) :
    (tick T { b with _down_millis := p, _up_millis_1 := (p + g) % 4294967296,
                     _up_millis_0 := (p + q) % 4294967296 } (p + n)).2 =
      (tick T { b with _down_millis := p', _up_millis_1 := (p' + g) % 4294967296,
                       _up_millis_0 := (p' + q) % 4294967296 } (p' + n)).2 ∧
    (tick T { b with _down_millis := p, _up_millis_1 := (p + g) % 4294967296,
                     _up_millis_0 := (p + q) % 4294967296 } (p + n)).1._processed =
      (tick T { b with _down_millis := p', _up_millis_1 := (p' + g) % 4294967296,
                       _up_millis_0 := (p' + q) % 4294967296 } (p' + n)).1._processed := by
  simp only [tick, sub32_shift, sub32_shift_left _ _ hp, sub32_shift_left _ _ hp',
    sub32_shift_right _ _ hp, sub32_shift_right _ _ hp', h0, h0', if_false]
  constructor <;> split_ifs <;> rfl

theorem tick_wraparound_witness :
    (tick defaultTimeouts
        { setup 2 0 true true true with
          _down_millis := 4294967286, _up_millis_1 := (4294967286 + 50) % 4294967296, _up_millis_0 := (4294967286 + 4294966296) % 4294967296, _processed := false }
        (4294967286 + 250)).2 =
      (tick defaultTimeouts
        { setup 2 0 true true true with
          _down_millis := 10000, _up_millis_1 := (10000 + 50) % 4294967296, _up_millis_0 := (10000 + 4294966296) % 4294967296, _processed := false }
        (10000 + 250)).2 ∧
    (tick defaultTimeouts
        { setup 2 0 true true true with
          _down_millis := 10000, _up_millis_1 := (10000 + 50) % 4294967296, _up_millis_0 := (10000 + 4294966296) % 4294967296, _processed := false }
        (10000 + 250)).2 = dispatch true Gesture.single false :=
  ⟨(tick_wraparound defaultTimeouts { setup 2 0 true true true with _processed := false }
      4294967286 10000 50 4294966296 250 (by decide) (by decide) (by decide) (by decide)).1,
   by decide⟩

/-! ## Sequences of edges and polls -/

/-- C14 as stated fails: with the timeouts 5000/6000/1000 a press is accepted at 10000 and
`tick()` at 11001 reaches the long-press dispatch; the release edge of that press at
12000, after the dispatch and 2000 ms after the press, is not accepted: the debounce test
`12000 - 10000 < 5000` drops it and the object stays as the dispatch left it. -/
theorem release_after_long_press_dropped :
    run { DEBOUNCE_TIMEOUT := 5000, DOUBLE_TIMEOUT := 6000, LONGPRESS_TIMEOUT := 1000 }
        (setup 2 0 true true true) [Call.interrupt 10000 0, Call.poll 11001] =
      ({ setup 2 0 true true true with _down_millis := 10000, _processed := true },
        [dispatch true Gesture.long true]) ∧
    sub32 11001 10000 ≤ sub32 12000 10000 ∧ sub32 12000 10000 < 2147483648 ∧
    handleInterrupt { DEBOUNCE_TIMEOUT := 5000, DOUBLE_TIMEOUT := 6000, LONGPRESS_TIMEOUT := 1000 }
        { setup 2 0 true true true with _down_millis := 10000, _processed := true } 12000 1 =
      { setup 2 0 true true true with _down_millis := 10000, _processed := true } ∧
    handleInterrupt { DEBOUNCE_TIMEOUT := 5000, DOUBLE_TIMEOUT := 6000, LONGPRESS_TIMEOUT := 1000 }
        { setup 2 0 true true true with _down_millis := 10000, _processed := true } 12000 1 ≠
      { setup 2 0 true true true with
        _down_millis := 10000, _up_millis_1 := 12000, _processed := false } := by
  decide

/-- C14, amended: let `tick()` at `n` have reached the long-press dispatch for the press
in `_down_millis`, and let the release edge of that press arrive at clock value `r`, at
or after `n` and less than 2^31 after the press. Whenever
`DEBOUNCE_TIMEOUT ≤ LONGPRESS_TIMEOUT + 1`, as with the defaults, the release is accepted.
For all timeouts, every `tick()` on the object an accepted release leaves either returns
true and changes nothing or sets `_processed` and returns false, in both cases without
dispatching, and, whether the release was accepted or dropped, no `tick()` between the
long-press dispatch and the release or after the release reaches any dispatch site. -/
theorem release_after_long_press (T : Timeouts) (b : InterruptButton) (n r st : Nat)
    (ps ms : List Nat)
    (hlong : (tick T b n).2.gesture = some Gesture.long)
    (hr : r < 4294967296)
    (hafter : sub32 n b._down_millis ≤ sub32 r b._down_millis)
    (hhalf : sub32 r b._down_millis < 2147483648)
    (hst : st ≠ b._level) :
    (T.DEBOUNCE_TIMEOUT ≤ T.LONGPRESS_TIMEOUT + 1 →
      handleInterrupt T (tick T b n).1 r st =
        { b with _up_millis_0 := b._up_millis_1, _up_millis_1 := r, _processed := false }) ∧
    (∀ m : Nat,
      tick T { b with _up_millis_0 := b._up_millis_1, _up_millis_1 := r, _processed := false } m =
        ({ b with _up_millis_0 := b._up_millis_1, _up_millis_1 := r, _processed := false },
          quiet true) ∨
      tick T { b with _up_millis_0 := b._up_millis_1, _up_millis_1 := r, _processed := false } m =
        ({ b with _up_millis_0 := b._up_millis_1, _up_millis_1 := r, _processed := true },
          quiet false)) ∧
    ∀ x ∈ (run T (tick T b n).1 (polls ps ++ Call.interrupt r st :: polls ms)).2,
      x.gesture = none := by
  obtain ⟨_, hd, _, _, hl, e⟩ := tick_long_inv T b n hlong
  rw [e]
  refine ⟨?_, ?_, ?_⟩
  · intro hT
    exact handleInterrupt_release T { b with _processed := true } r st hr hst
      (by show T.DEBOUNCE_TIMEOUT ≤ sub32 r b._down_millis; omega)
  · intro m
    by_cases hw : sub32 m r < T.DOUBLE_TIMEOUT
    · left
      exact tick_waiting T
        { b with _up_millis_0 := b._up_millis_1, _up_millis_1 := r, _processed := false }
        m rfl hd hw
    · right
      rw [tick_released T
        { b with _up_millis_0 := b._up_millis_1, _up_millis_1 := r, _processed := false }
        m rfl hd (by show T.DOUBLE_TIMEOUT ≤ sub32 m r; omega) hhalf]
      rw [if_pos (by show T.LONGPRESS_TIMEOUT < sub32 r b._down_millis; omega)]
  · have inv := run_polls_invariant T
      (fun b1 => b1._processed = true ∨
        (sub32 b1._up_millis_1 b1._down_millis < 2147483648 ∧
          T.LONGPRESS_TIMEOUT < sub32 b1._up_millis_1 b1._down_millis))
      (fun x => x.gesture = none)
      (fun b1 m h1 => by
        rcases h1 with h1 | h1
        · rw [tick_of_processed T b1 m h1]
          exact ⟨Or.inl h1, rfl⟩
        · refine ⟨Or.inr ?_, tick_late_release_quiet T b1 m h1.1 h1.2⟩
          rcases tick_state_cases T b1 m with e1 | ⟨_, e1⟩ <;> rw [e1] <;> exact h1)
    rw [run_polls_const_append T _ (quiet false) ps _
      (fun m _ => tick_of_processed T _ m rfl), run_interrupt]
    intro x hx
    rcases List.mem_append.mp hx with hx | hx
    · rw [List.mem_map] at hx
      obtain ⟨_, _, rfl⟩ := hx
      rfl
    · refine (inv ms _ ?_).2 x hx
      by_cases hacc : sub32 r b._down_millis < T.DEBOUNCE_TIMEOUT
      · left
        rw [handleInterrupt_bounce T { b with _processed := true } r st hacc]
      · right
        rw [handleInterrupt_release T { b with _processed := true } r st hr hst
          (by show T.DEBOUNCE_TIMEOUT ≤ sub32 r b._down_millis; omega)]
        exact ⟨hhalf, by show T.LONGPRESS_TIMEOUT < sub32 r b._down_millis; omega⟩

theorem release_after_long_press_witness :
    (run defaultTimeouts
        (tick defaultTimeouts
          { setup 2 0 true true true with _down_millis := 1000, _processed := false } 2001).1
        (polls [2500] ++ Call.interrupt 3000 1 :: polls [3100, 3200, 9000])).2 =
      [quiet false, quiet true, quiet false, quiet false] ∧
    ∀ x ∈ (run defaultTimeouts
        (tick defaultTimeouts
          { setup 2 0 true true true with _down_millis := 1000, _processed := false } 2001).1
        (polls [2500] ++ Call.interrupt 3000 1 :: polls [3100, 3200, 9000])).2,
      x.gesture = none :=
  ⟨by decide,
   (release_after_long_press defaultTimeouts
      { setup 2 0 true true true with _down_millis := 1000, _processed := false } 2001 3000 1
      [2500] [3100, 3200, 9000] (by decide) (by decide) (by decide) (by decide)
      (by decide)).2.2⟩

/-- C16 as stated fails: two single clicks (released at 1050 and at 2050, dispatched at
1250 and 2250), then a press accepted at clock value 1100 after the clock has gone once
round, that is 2^32 - 950 ms after the release at 2050, so the wrapping gap is far above
`DOUBLE_TIMEOUT`. The `tick()` right after that press takes the held button for a click
released at 2050 and compares the press with the older release 1050: it reaches the
double-click dispatch. -/
theorem later_click_double_after_wrap :
    (run defaultTimeouts (setup 2 0 true true true)
        [Call.interrupt 1000 0, Call.interrupt 1050 1, Call.poll 1250,
          Call.interrupt 2000 0, Call.interrupt 2050 1, Call.poll 2250,
          Call.interrupt 1100 0, Call.poll 1100,
          Call.interrupt 1150 1, Call.poll 1350]).2 =
      [dispatch true Gesture.single false, dispatch true Gesture.single false,
        dispatch true Gesture.double false, dispatch true Gesture.single false] ∧
    defaultTimeouts.DOUBLE_TIMEOUT ≤ sub32 1100 2050 ∧ sub32 1100 2050 = 4294967296 - 950 := by
  decide

/-- C16, amended: let `tick()` at `n` have reached the single-click dispatch for the click
whose release is `_up_millis_1`, and let a press edge be accepted at `p2`, at or after `n`
(counted from that release, within one round of the clock). Then the wrapping gap
`p2 - _up_millis_1` is at least `DOUBLE_TIMEOUT`; once the release of the later click is
recorded no `tick()` reaches the double-click dispatch; and when moreover
`_up_millis_1 - p2 > LONGPRESS_TIMEOUT` (the press comes less than
2^32 - `LONGPRESS_TIMEOUT` after the release), no `tick()` at all, whether before or
after the release edge of the later click, reaches the double-click dispatch. -/
theorem later_click_not_double (T : Timeouts) (b : InterruptButton) (n p2 r2 st : Nat)
    (ps ms : List Nat)
    (hs : (tick T b n).2.gesture = some Gesture.single)
    (hp2 : p2 < 4294967296)
    (hafter : sub32 n b._up_millis_1 ≤ sub32 p2 b._up_millis_1)
    (hacc : T.DEBOUNCE_TIMEOUT ≤ sub32 p2 b._down_millis)
    (hst : st ≠ b._level) :
    T.DOUBLE_TIMEOUT ≤ sub32 p2 b._up_millis_1 ∧
    handleInterrupt T (tick T b n).1 p2 b._level =
      { b with _down_millis := p2, _processed := false } ∧
    (∀ m : Nat,
      (tick T { b with _down_millis := p2, _up_millis_0 := b._up_millis_1,
                       _up_millis_1 := r2, _processed := false } m).2.gesture
        ≠ some Gesture.double) ∧
    (T.LONGPRESS_TIMEOUT < sub32 b._up_millis_1 p2 →
      ∀ x ∈ (run T (tick T b n).1
          (Call.interrupt p2 b._level :: (polls ps ++ Call.interrupt r2 st :: polls ms))).2,
        x.gesture ≠ some Gesture.double) := by
  obtain ⟨_, _, hw, _, _, _, e⟩ := tick_single_inv T b n hs
  have hgap : T.DOUBLE_TIMEOUT ≤ sub32 p2 b._up_millis_1 := by omega
  have hpress : handleInterrupt T { b with _processed := true } p2 b._level =
      { b with _down_millis := p2, _processed := false } :=
    handleInterrupt_press T { b with _processed := true } p2 b._level hp2 rfl hacc
  rw [e]
  refine ⟨hgap, hpress, ?_, ?_⟩
  · intro m hdb
    have := (tick_double_inv T _ m hdb).2.2.2.2.2.1
    have h2 : sub32 p2 b._up_millis_1 < T.DOUBLE_TIMEOUT := this
    omega
  · intro hlim
    have inv1 := run_polls_invariant T
      (fun b1 => b1._level = b._level ∧ b1._down_millis = p2 ∧ b1._up_millis_1 = b._up_millis_1)
      (fun x => x.gesture ≠ some Gesture.double)
      (fun b1 m h1 => by
        constructor
        · rcases tick_state_cases T b1 m with e1 | ⟨_, e1⟩ <;> rw [e1] <;> exact h1
        · intro hdb
          have := (tick_double_inv T b1 m hdb).2.2.2.2.1
          rw [h1.2.1, h1.2.2] at this
          omega)
    have inv2 := run_polls_invariant T
      (fun b1 => b1._down_millis = p2 ∧
        (b1._up_millis_1 = b._up_millis_1 ∨ b1._up_millis_0 = b._up_millis_1))
      (fun x => x.gesture ≠ some Gesture.double)
      (fun b1 m h1 => by
        constructor
        · rcases tick_state_cases T b1 m with e1 | ⟨_, e1⟩ <;> rw [e1] <;> exact h1
        · intro hdb
          have h3 := (tick_double_inv T b1 m hdb).2.2.2.2.1
          have h4 := (tick_double_inv T b1 m hdb).2.2.2.2.2.1
          rw [h1.1] at h3 h4
          rcases h1.2 with h5 | h5
          · rw [h5] at h3; omega
          · rw [h5] at h4; omega)
    rw [run_interrupt, hpress, run_append]
    have a1 := inv1 ps { b with _down_millis := p2, _processed := false } ⟨rfl, rfl, rfl⟩
    intro x hx
    rcases List.mem_append.mp hx with hx | hx
    · exact a1.2 x hx
    · rw [run_interrupt] at hx
      refine (inv2 ms _ ?_).2 x hx
      obtain ⟨hlev, hdown, hup⟩ := a1.1
      rcases handleInterrupt_release_cases T
          (run T { b with _down_millis := p2, _processed := false } (polls ps)).1 r2 st
          (by rw [hlev]; exact hst) with e2 | e2
      · rw [e2]; exact ⟨hdown, Or.inl hup⟩
      · rw [e2]; exact ⟨hdown, Or.inr hup⟩

theorem later_click_not_double_witness :
    (run defaultTimeouts
        (tick defaultTimeouts
          { setup 2 0 true true true with
            _down_millis := 2000, _up_millis_0 := 1050, _up_millis_1 := 2050, _processed := false }
          2250).1
        (Call.interrupt 2260 0 :: (polls [2270] ++ Call.interrupt 2300 1 :: polls [2400, 2500]))).2 =
      [quiet false, quiet true, dispatch true Gesture.single false] ∧
    defaultTimeouts.DOUBLE_TIMEOUT ≤ sub32 2260 2050 ∧
    ∀ x ∈ (run defaultTimeouts
        (tick defaultTimeouts
          { setup 2 0 true true true with
            _down_millis := 2000, _up_millis_0 := 1050, _up_millis_1 := 2050, _processed := false }
          2250).1
        (Call.interrupt 2260 0 :: (polls [2270] ++ Call.interrupt 2300 1 :: polls [2400, 2500]))).2,
      x.gesture ≠ some Gesture.double :=
  ⟨by decide,
   (later_click_not_double defaultTimeouts
      { setup 2 0 true true true with
        _down_millis := 2000, _up_millis_0 := 1050, _up_millis_1 := 2050, _processed := false }
      2250 2260 2300 1 [2270] [2400, 2500]
      (by decide) (by decide) (by decide) (by decide) (by decide)).1,
   (later_click_not_double defaultTimeouts
      { setup 2 0 true true true with
        _down_millis := 2000, _up_millis_0 := 1050, _up_millis_1 := 2050, _processed := false }
      2250 2260 2300 1 [2270] [2400, 2500]
      (by decide) (by decide) (by decide) (by decide) (by decide)).2.2.2 (by decide)⟩

/-- C17: with the default timeouts, on a freshly constructed object, the edges press@1000,
release@1050, press@1052, release@1054 leave `_down_millis` 1052, `_up_millis_1` 1050 and
`_processed` false: the bounce press is accepted, the final release is dropped and the
object reads as a key still held. Whatever polls are made between the edges (at clock
values between the neighbouring edges) and after them (at any clock values), no `tick()`
reaches the single-click dispatch, and a `tick()` at 2053 reaches the long-press
dispatch. -/
theorem release_bounce_reads_as_hold (pin level st : Nat) (s d l : Bool)
    (ps1 ps2 ps3 ms : List Nat)
    (hst : st ≠ level)
    (h1 : ∀ m ∈ ps1, 1000 ≤ m ∧ m ≤ 1050)
    (h2 : ∀ m ∈ ps2, 1050 ≤ m ∧ m ≤ 1052)
    (h3 : ∀ m ∈ ps3, 1052 ≤ m ∧ m ≤ 1054) :
    run defaultTimeouts (setup pin level s d l)
        [Call.interrupt 1000 level, Call.interrupt 1050 st,
          Call.interrupt 1052 level, Call.interrupt 1054 st] =
      ({ setup pin level s d l with
          _down_millis := 1052, _up_millis_1 := 1050, _processed := false }, []) ∧
    2147483648 ≤ sub32 1050 1052 ∧
    (∀ x ∈ (run defaultTimeouts (setup pin level s d l)
        (Call.interrupt 1000 level :: (polls ps1 ++ Call.interrupt 1050 st ::
          (polls ps2 ++ Call.interrupt 1052 level ::
            (polls ps3 ++ Call.interrupt 1054 st :: polls ms))))).2,
      x.gesture ≠ some Gesture.single) ∧
    run defaultTimeouts (setup pin level s d l)
        [Call.interrupt 1000 level, Call.interrupt 1050 st,
          Call.interrupt 1052 level, Call.interrupt 1054 st, Call.poll 2053] =
      ({ setup pin level s d l with
          _down_millis := 1052, _up_millis_1 := 1050, _processed := true },
        [dispatch l Gesture.long true]) := by
  have eA : handleInterrupt defaultTimeouts (setup pin level s d l) 1000 level =
      { setup pin level s d l with _down_millis := 1000, _processed := false } :=
    handleInterrupt_press defaultTimeouts _ 1000 level (by omega) rfl
      (by show 20 ≤ sub32 1000 0; decide)
  have eB : handleInterrupt defaultTimeouts
      { setup pin level s d l with _down_millis := 1000, _processed := false } 1050 st =
      { setup pin level s d l with
        _down_millis := 1000, _up_millis_1 := 1050, _processed := false } :=
    handleInterrupt_release defaultTimeouts _ 1050 st (by omega) hst
      (by show 20 ≤ sub32 1050 1000; decide)
  have eC : handleInterrupt defaultTimeouts
      { setup pin level s d l with
        _down_millis := 1000, _up_millis_1 := 1050, _processed := false } 1052 level =
      { setup pin level s d l with
        _down_millis := 1052, _up_millis_1 := 1050, _processed := false } :=
    handleInterrupt_press defaultTimeouts _ 1052 level (by omega) rfl
      (by show 20 ≤ sub32 1052 1000; decide)
  have eD : handleInterrupt defaultTimeouts
      { setup pin level s d l with
        _down_millis := 1052, _up_millis_1 := 1050, _processed := false } 1054 st =
      { setup pin level s d l with
        _down_millis := 1052, _up_millis_1 := 1050, _processed := false } :=
    handleInterrupt_bounce defaultTimeouts _ 1054 st (by show sub32 1054 1052 < 20; decide)
  have qA : ∀ m ∈ ps1, tick defaultTimeouts
      { setup pin level s d l with _down_millis := 1000, _processed := false } m =
      ({ setup pin level s d l with _down_millis := 1000, _processed := false },
        quiet false) := by
    intro m hm
    have := h1 m hm
    rw [tick_held defaultTimeouts _ m rfl (by show 1000 ≠ 0; decide)
      (by show 200 ≤ sub32 m 0; unfold sub32; omega)
      (by show 2147483648 ≤ sub32 0 1000; decide)]
    rw [if_neg (by show ¬ 1000 < sub32 m 1000; unfold sub32; omega)]
  have qB : ∀ m ∈ ps2, tick defaultTimeouts
      { setup pin level s d l with
        _down_millis := 1000, _up_millis_1 := 1050, _processed := false } m =
      ({ setup pin level s d l with
        _down_millis := 1000, _up_millis_1 := 1050, _processed := false }, quiet true) := by
    intro m hm
    have := h2 m hm
    exact tick_waiting defaultTimeouts _ m rfl (by show 1000 ≠ 0; decide)
      (by show sub32 m 1050 < 200; unfold sub32; omega)
  have qC : ∀ m ∈ ps3, tick defaultTimeouts
      { setup pin level s d l with
        _down_millis := 1052, _up_millis_1 := 1050, _processed := false } m =
      ({ setup pin level s d l with
        _down_millis := 1052, _up_millis_1 := 1050, _processed := false }, quiet true) := by
    intro m hm
    have := h3 m hm
    exact tick_waiting defaultTimeouts _ m rfl (by show 1052 ≠ 0; decide)
      (by show sub32 m 1050 < 200; unfold sub32; omega)
  have inv := run_polls_invariant defaultTimeouts
    (fun b1 => 2147483648 ≤ sub32 b1._up_millis_1 b1._down_millis)
    (fun x => x.gesture ≠ some Gesture.single)
    (fun b1 m hb => by
      constructor
      · rcases tick_state_cases defaultTimeouts b1 m with e1 | ⟨_, e1⟩ <;> rw [e1] <;> exact hb
      · intro hs
        have := (tick_single_inv defaultTimeouts b1 m hs).2.2.2.1
        omega)
  refine ⟨?_, by decide, ?_, ?_⟩
  · rw [run_interrupt, eA, run_interrupt, eB, run_interrupt, eC, run_interrupt, eD]
    rfl
  · rw [run_interrupt, eA, run_polls_const_append _ _ _ _ _ qA, run_interrupt, eB,
      run_polls_const_append _ _ _ _ _ qB, run_interrupt, eC,
      run_polls_const_append _ _ _ _ _ qC, run_interrupt, eD]
    intro x hx
    simp only [List.mem_append, List.mem_map] at hx
    rcases hx with ⟨_, _, rfl⟩ | ⟨_, _, rfl⟩ | ⟨_, _, rfl⟩ | hx
    · simp [quiet]
    · simp [quiet]
    · simp [quiet]
    · exact (inv ms _ (by show 2147483648 ≤ sub32 1050 1052; decide)).2 x hx
  · rw [run_interrupt, eA, run_interrupt, eB, run_interrupt, eC, run_interrupt, eD, run_poll,
      tick_held defaultTimeouts _ 2053 rfl (by show 1052 ≠ 0; decide)
        (by show 200 ≤ sub32 2053 1050; decide)
        (by show 2147483648 ≤ sub32 1050 1052; decide)]
    rw [if_pos (by show 1000 < sub32 2053 1052; decide)]
    rfl

theorem release_bounce_reads_as_hold_witness :
    (run defaultTimeouts (setup 2 0 true true true)
        (Call.interrupt 1000 0 :: (polls [1020] ++ Call.interrupt 1050 1 ::
          (polls [1051] ++ Call.interrupt 1052 0 ::
            (polls [1053] ++ Call.interrupt 1054 1 :: polls [1060, 1260, 2053, 9000]))))).2 =
      [quiet false, quiet true, quiet true, quiet true, quiet false,
        dispatch true Gesture.long true, quiet false] ∧
    run defaultTimeouts (setup 2 0 true true true)
        [Call.interrupt 1000 0, Call.interrupt 1050 1,
          Call.interrupt 1052 0, Call.interrupt 1054 1, Call.poll 2053] =
      ({ setup 2 0 true true true with
          _down_millis := 1052, _up_millis_1 := 1050, _processed := true },
        [dispatch true Gesture.long true]) :=
  ⟨by decide,
   (release_bounce_reads_as_hold 2 0 1 true true true [1020] [1051] [1053]
      [1060, 1260, 2053, 9000] (by decide) (by decide) (by decide) (by decide)).2.2.2⟩

/-- C19 as stated fails: a long press (press 1000, long-press dispatch at 2001, release
3000) is followed by a click pressed at 3100, which is 100 ms after that release, and
released at 3110, a hold of 10 ms. The release edge is dropped by the debounce test
(`3110 - 3100 < 20`), so the first poll at or after 3110 + 200 and the next one dispatch
nothing, and the poll at 4101 reaches the long-press dispatch: no double click. -/
theorem short_click_after_long_press_not_double :
    run defaultTimeouts (setup 2 0 true true true)
        [Call.interrupt 1000 0, Call.poll 2001, Call.interrupt 3000 1,
          Call.interrupt 3100 0, Call.interrupt 3110 1,
          Call.poll 3310, Call.poll 4000, Call.poll 4101] =
      ({ setup 2 0 true true true with
          _down_millis := 3100, _up_millis_1 := 3000, _processed := true },
        [dispatch true Gesture.long true, quiet false, quiet false,
          dispatch true Gesture.long true]) := by
  decide

/-- C19, amended: whatever gesture the recorded release `_up_millis_1` ended (a long press
included), a click whose press is accepted at a non-zero clock value `p2` less than
`DOUBLE_TIMEOUT` after that release and whose release edge is accepted at `r2`, between
`DEBOUNCE_TIMEOUT` and `LONGPRESS_TIMEOUT` after the press, leaves `_up_millis_0` equal
to the old release whatever polls came between its two edges; polls less than
`DOUBLE_TIMEOUT` after `r2` return true without dispatching and the first poll at least
`DOUBLE_TIMEOUT` after `r2` reaches the double-click dispatch, not the single-click one.
Likewise on a freshly constructed object with the default timeouts a first click pressed
at a clock value in [20, 200) and released between 20 and 1000 ms later is dispatched as
a double click. -/
theorem double_from_previous_release :
    (∀ (T : Timeouts) (b : InterruptButton) (p2 r2 st : Nat) (ps early later : List Nat)
        (n : Nat),
      T.LONGPRESS_TIMEOUT < 2147483648 →
      p2 < 4294967296 → p2 ≠ 0 → r2 < 4294967296 →
      T.DEBOUNCE_TIMEOUT ≤ sub32 p2 b._down_millis →
      sub32 p2 b._up_millis_1 < T.DOUBLE_TIMEOUT →
      T.DEBOUNCE_TIMEOUT ≤ sub32 r2 p2 →
      sub32 r2 p2 ≤ T.LONGPRESS_TIMEOUT →
      st ≠ b._level →
      (∀ m ∈ early, sub32 m r2 < T.DOUBLE_TIMEOUT) →
      T.DOUBLE_TIMEOUT ≤ sub32 n r2 →
      (run T b (Call.interrupt p2 b._level :: (polls ps ++ [Call.interrupt r2 st]))).1 =
        { b with _down_millis := p2, _up_millis_0 := b._up_millis_1, _up_millis_1 := r2,
                 _processed := false } ∧
      run T { b with _down_millis := p2, _up_millis_0 := b._up_millis_1, _up_millis_1 := r2,
                     _processed := false }
          (polls early ++ Call.poll n :: polls later) =
        ({ b with _down_millis := p2, _up_millis_0 := b._up_millis_1, _up_millis_1 := r2,
                  _processed := true },
          early.map (fun _ => quiet true) ++
            dispatch b._double_cb Gesture.double false :: later.map (fun _ => quiet false))) ∧
    (∀ (pin level st : Nat) (s d l : Bool) (p r : Nat) (early later : List Nat) (n : Nat),
      20 ≤ p → p < 200 → p + 20 ≤ r → r ≤ p + 1000 → st ≠ level →
      (∀ m ∈ early, r ≤ m ∧ m < r + 200) → r + 200 ≤ n → n < 4294967296 →
      run defaultTimeouts (setup pin level s d l)
          (Call.interrupt p level :: Call.interrupt r st ::
            (polls early ++ Call.poll n :: polls later)) =
        ({ setup pin level s d l with
            _down_millis := p, _up_millis_1 := r, _processed := true },
          early.map (fun _ => quiet true) ++
            dispatch d Gesture.double false :: later.map (fun _ => quiet false))) := by
  constructor
  · intro T b p2 r2 st ps early later n hT hp2 hp20 hr2 hpacc hnear hracc hclick hst hearly hn
    exact click_after_release T b p2 r2 st ps early later n hT hp2 hp20 hr2 hpacc hnear hracc
      hclick hst hearly hn
  · intro pin level st s d l p r early later n h20 h200 hr hr' hst hearly hn hn32
    have h : (run defaultTimeouts (setup pin level s d l)
          (Call.interrupt p level :: (polls [] ++ [Call.interrupt r st]))).1 =
          { setup pin level s d l with
            _down_millis := p, _up_millis_1 := r, _processed := false } ∧
        run defaultTimeouts
            { setup pin level s d l with
              _down_millis := p, _up_millis_1 := r, _processed := false }
            (polls early ++ Call.poll n :: polls later) =
          ({ setup pin level s d l with
              _down_millis := p, _up_millis_1 := r, _processed := true },
            early.map (fun _ => quiet true) ++
              dispatch d Gesture.double false :: later.map (fun _ => quiet false)) :=
      click_after_release defaultTimeouts (setup pin level s d l) p r st [] early
      later n (by decide) (by omega) (by omega) (by omega)
      (by show 20 ≤ sub32 p 0; unfold sub32; omega)
      (by show sub32 p 0 < 200; unfold sub32; omega)
      (by show 20 ≤ sub32 r p; unfold sub32; omega)
      (by show sub32 r p ≤ 1000; unfold sub32; omega)
      hst
      (fun m hm => by
        have := hearly m hm
        show sub32 m r < 200
        unfold sub32; omega)
      (by show 200 ≤ sub32 n r; unfold sub32; omega)
    have h0 : (run defaultTimeouts (setup pin level s d l)
          (Call.interrupt p level :: (polls [] ++ [Call.interrupt r st]))).1 =
        handleInterrupt defaultTimeouts
          (handleInterrupt defaultTimeouts (setup pin level s d l) p level) r st := by
      simp only [polls, List.map_nil, List.nil_append, run]
    rw [run_interrupt, run_interrupt, ← h0, h.1]
    exact h.2

theorem double_from_previous_release_witness :
    run defaultTimeouts
        { setup 2 0 true true true with
          _down_millis := 3100, _up_millis_0 := 3000, _up_millis_1 := 3150, _processed := false }
        (polls [3200, 3349] ++ Call.poll 3350 :: polls [3351]) =
      ({ setup 2 0 true true true with
          _down_millis := 3100, _up_millis_0 := 3000, _up_millis_1 := 3150, _processed := true },
        [3200, 3349].map (fun _ => quiet true) ++
          dispatch true Gesture.double false :: [3351].map (fun _ => quiet false)) ∧
    (run defaultTimeouts (setup 2 0 true true true)
        [Call.interrupt 1000 0, Call.poll 2001, Call.interrupt 3000 1,
          Call.interrupt 3100 0, Call.poll 3120, Call.interrupt 3150 1,
          Call.poll 3200, Call.poll 3349, Call.poll 3350, Call.poll 3351]).2 =
      [dispatch true Gesture.long true, quiet true, quiet true, quiet true,
        dispatch true Gesture.double false, quiet false] :=
  ⟨(double_from_previous_release.1 defaultTimeouts
      { setup 2 0 true true true with
        _down_millis := 1000, _up_millis_1 := 3000, _processed := false }
      3100 3150 1 [3120] [3200, 3349] [3351] 3350
      (by decide) (by decide) (by decide) (by decide) (by decide) (by decide) (by decide)
      (by decide) (by decide) (by decide) (by decide)).2,
   by decide⟩

end Palatis
